import Mathlib

/-!
Verification development for the content-to-layout mapping pipeline of the
`backend_infographics` repository.  The definitions below are shallow
embeddings of the Python functions in
`backend/services/infographic_generator.py`, `backend/services/vector_db.py`,
`backend/services/template_service.py` and `backend/main.py`; theorems settle
the spec's claims about them.
-/

namespace Infographic

/-! ### Python string primitives over `List Char`

Python operates on character sequences; we model the operations used by the
pipeline (`in`, `.lower()`, `.strip()`, `.split()`, `.split('.')`,
`.replace('"','')`, slicing) directly over `List Char` so every definition is
kernel-executable. -/

/-- Python's `str.lower()` applied to a character list. -/
def lowerL (cs : List Char) : List Char := cs.map Char.toLower

/-- Python's substring test `needle in haystack` over character lists. -/
def isSubstrL (ns : List Char) : List Char → Bool
  | [] => ns.isEmpty
  | h :: t => ns.isPrefixOf (h :: t) || isSubstrL ns t

/-- Substring test on `String`s (Python `needle in haystack`). -/
def substrInStr (needle hay : String) : Bool := isSubstrL needle.toList hay.toList

/-- Python's `str.strip()` (whitespace from both ends). -/
def pyStrip (cs : List Char) : List Char :=
  ((cs.dropWhile Char.isWhitespace).reverse.dropWhile Char.isWhitespace).reverse

/-- Python's `str.split(sep)` for a single-character separator: keeps empty
pieces, and `"".split('.') == [""]`. -/
def splitOnChar (sep : Char) : List Char → List (List Char)
  | [] => [[]]
  | c :: rest =>
    let r := splitOnChar sep rest
    if c = sep then [] :: r
    else
      match r with
      | [] => [[c]]
      | h :: t => (c :: h) :: t

/-- Helper for `pyWordCount`: counts maximal non-whitespace runs; the flag
records whether the scan is currently inside a word. -/
def countWordsAux : Bool → List Char → Nat
  | _, [] => 0
  | inWord, c :: rest =>
    if c.isWhitespace then countWordsAux false rest
    else (if inWord then 0 else 1) + countWordsAux true rest

/-- `len(text.split())` in Python: number of whitespace-separated words. -/
def pyWordCount (cs : List Char) : Nat := countWordsAux false cs

/-! ### Data model

Icon candidates as shaped by `vector_db.VectorIconService.find_relevant_icons`
(id, name, category, keywords, similarity score); the `svg_path` and
`description` fields are constant decorations never consulted by the mapping
logic and are omitted.  Similarity scores are rationals (the spec's data model
puts them in `[0,1]`; the code computes `1.0 - distance`). -/

structure Icon where
  id : String
  name : String
  category : String
  keywords : List String
  similarity_score : ℚ
  deriving DecidableEq, Repr

/-- One coordinate slot of `template_icon_coordinates` as returned by
`TemplateService.get_template_coordinates` (grouped per element type, in
ascending `element_index` order thanks to the SQL `ORDER BY`). -/
structure Coord where
  x : Int
  y : Int
  width : Int
  height : Int
  icon_size : String
  deriving DecidableEq, Repr

/-- The `position` record the generator copies out of a coordinate slot
(`{x, y, width, height}`, without `icon_size`). -/
structure Pos where
  x : Int
  y : Int
  width : Int
  height : Int
  deriving DecidableEq, Repr

/-- The four geometry fields of a slot. -/
def Coord.pos (c : Coord) : Pos := ⟨c.x, c.y, c.width, c.height⟩

/-- A statistic record `{label, value, percentage}`. -/
structure Statistic where
  label : String
  value : String
  percentage : Int
  deriving DecidableEq, Repr

/-- The content analysis fields consulted by the generator
(`content.get('keyPoints', [])` etc.). -/
structure ContentAnalysis where
  mainTitle : String
  keyPoints : List String
  statistics : List Statistic
  quotes : List String
  category : String
  deriving DecidableEq, Repr

/-- `template_data['coordinates']` grouped by element type; a kind with no
slots is the empty list (Python `coordinates.get(kind, [])`). -/
structure TemplateCoords where
  key_point : List Coord
  statistic : List Coord
  quote : List Coord
  deriving DecidableEq, Repr

/-- A positioned textual element (key point or quote) of the output layout. -/
structure PositionedText where
  index : Nat
  text : String
  position : Pos
  icon : Option Icon
  icon_size : String
  deriving DecidableEq, Repr

/-- A positioned statistic of the output layout. -/
structure PositionedStat where
  index : Nat
  data : Statistic
  position : Pos
  icon : Option Icon
  icon_size : String
  deriving DecidableEq, Repr

/-- The `positioned_elements` output of `_map_icons_to_positions`. -/
structure PositionedElements where
  key_points : List PositionedText
  statistics : List PositionedStat
  quotes : List PositionedText
  title : List PositionedText
  deriving DecidableEq, Repr

/-! ### `InfographicGenerator._find_best_icon_for_text`
(`backend/services/infographic_generator.py`, lines 149-178) -/

/-- The per-candidate score of the selection loop: `+2` for each keyword of
the candidate occurring in the (already lowercased) element text, `+1` if the
candidate's category occurs in it, plus the candidate's similarity score. -/
def iconScore (textLower : String) (icon : Icon) : ℚ :=
  2 * ((icon.keywords.filter fun kw => substrInStr (String.mk (lowerL kw.toList)) textLower).length : ℚ)
    + (if substrInStr (String.mk (lowerL icon.category.toList)) textLower then 1 else 0)
    + icon.similarity_score

/-- The `for icon in available_icons` loop of `_find_best_icon_for_text`:
keeps the current best candidate and its score, replacing it only on a
strictly greater score (`if score > best_score`), starting from
`best_icon = None`, `best_score = 0`. -/
def findBestLoop (textLower : String) : List Icon → Option Icon → ℚ → Option Icon
  | [], best, _ => best
  | icon :: rest, best, bestScore =>
    let score := iconScore textLower icon
    if bestScore < score then findBestLoop textLower rest (some icon) score
    else findBestLoop textLower rest best bestScore

/-- `_find_best_icon_for_text(text, available_icons)`: `None` on an empty
pool; otherwise the loop's winner, or the first pool icon as fallback
(`return best_icon or available_icons[0]`). -/
def find_best_icon_for_text (text : String) (available_icons : List Icon) : Option Icon :=
  match available_icons with
  | [] => none
  | first :: _ =>
    match findBestLoop (String.mk (lowerL text.toList)) available_icons none 0 with
    | some icon => some icon
    | none => some first

/-! ### `InfographicGenerator._map_icons_to_positions`
(`backend/services/infographic_generator.py`, lines 66-147) -/

/-- The positional binding loop
`for i, e in enumerate(elems): if i < len(coords): append(f(i, e, coords[i]))`:
an element at index `i` is emitted exactly when a slot with that index exists,
in content order. -/
def mapElems {α β : Type} (f : Nat → α → Coord → β) : Nat → List α → List Coord → List β
  | _, [], _ => []
  | _, _ :: _, [] => []
  | i, a :: as, c :: cs => f i a c :: mapElems f (i + 1) as cs

/-- `_map_icons_to_positions(content, template_data, icons)`: binds key
points, statistics and quotes to their same-index slots; key points are
matched against their own text, statistics against `label + " " + value`,
quotes against the literal `"quote"`; `title` is initialized empty and never
filled. -/
def map_icons_to_positions (content : ContentAnalysis) (coordinates : TemplateCoords)
    (icons : List Icon) : PositionedElements :=
  { key_points := mapElems (fun i point coord =>
      { index := i, text := point, position := coord.pos,
        icon := find_best_icon_for_text point icons,
        icon_size := coord.icon_size }) 0 content.keyPoints coordinates.key_point
    statistics := mapElems (fun i stat coord =>
      { index := i, data := stat, position := coord.pos,
        icon := find_best_icon_for_text (stat.label ++ " " ++ stat.value) icons,
        icon_size := coord.icon_size }) 0 content.statistics coordinates.statistic
    quotes := mapElems (fun i quote coord =>
      { index := i, text := quote, position := coord.pos,
        icon := find_best_icon_for_text "quote" icons,
        icon_size := coord.icon_size }) 0 content.quotes coordinates.quote
    title := [] }

/-! ### `TemplateService.get_template_coordinates`
(`backend/services/template_service.py`, lines 237-298)

The template store (the Postgres `templates` / `template_icon_coordinates` /
`template_color_schemes` tables) is modeled as a list of per-template records;
the per-kind coordinate lists are taken in ascending `element_index` order,
which the SQL `ORDER BY element_type, element_index` guarantees. -/

/-- A row of the `templates` table (columns consulted by the generator). -/
structure Template where
  id : String
  name : String
  category : String
  width : Int
  height : Int
  deriving DecidableEq, Repr

/-- A row of `template_color_schemes`. -/
structure ColorScheme where
  scheme_name : String
  primary_color : String
  secondary_color : String
  accent_color : String
  background_color : String
  text_color : String
  is_default : Bool
  deriving DecidableEq, Repr

/-- The record `get_template_coordinates` assembles for one template. -/
structure TemplateData where
  template : Template
  coordinates : TemplateCoords
  color_schemes : List ColorScheme
  deriving DecidableEq, Repr

/-- `get_template_coordinates(template_id)`: looks the id up in the store;
an unknown id yields the empty dict `{}`, modeled as `none`. -/
def get_template_coordinates (store : List TemplateData) (template_id : String) :
    Option TemplateData :=
  store.find? fun td => td.template.id = template_id

/-! ### `InfographicGenerator.generate_infographic_data`
(`backend/services/infographic_generator.py`, lines 21-64) -/

/-- The final infographic structure (the `infographic_data` dict). -/
structure InfographicData where
  template : Template
  content : ContentAnalysis
  positioned_elements : PositionedElements
  color_schemes : List ColorScheme
  dim_width : Int
  dim_height : Int
  deriving DecidableEq, Repr

/-- `generate_infographic_data(content_analysis, template_id)`.  The icon
fetch `vector_service.find_relevant_icons(content, category, 10)` is passed in
as the function `iconService` (content text → category → limit → pool); an
unknown template id yields the empty dict `{}`, modeled as `none`. -/
def generate_infographic_data (store : List TemplateData)
    (iconService : String → String → Nat → List Icon)
    (content_analysis : ContentAnalysis) (template_id : String) :
    Option InfographicData :=
  match get_template_coordinates store template_id with
  | none => none
  | some template_data =>
    let content_text :=
      content_analysis.mainTitle ++ " " ++ String.intercalate " " content_analysis.keyPoints
    let relevant_icons := iconService content_text content_analysis.category 10
    some
      { template := template_data.template
        content := content_analysis
        positioned_elements :=
          map_icons_to_positions content_analysis template_data.coordinates relevant_icons
        color_schemes := template_data.color_schemes
        dim_width := template_data.template.width
        dim_height := template_data.template.height }

/-! ### `VectorIconService.find_relevant_icons` and `_get_fallback_icons`
(`backend/services/vector_db.py`, lines 249-309)

The ChromaDB collection is modeled as an optional query function
(`None` when `__init__` failed and set `self.collection = None`); a query
either returns rows (ids/metadata/distances, already paired per result) or
raises, modeled by `QueryOutcome.err`. -/

/-- One result row of `collection.query`: id, optional metadata fields, and
the reported distance. -/
structure QueryRow where
  id : String
  name : Option String
  category : Option String
  keywords : List String
  distance : ℚ
  deriving DecidableEq, Repr

/-- Outcome of a `collection.query` call: rows, or a raised exception. -/
inductive QueryOutcome where
  | ok (rows : List QueryRow)
  | err
  deriving DecidableEq, Repr

/-- The per-row shaping of the result loop in `find_relevant_icons`:
`name`/`category` default via `metadata.get`, and
`similarity_score = 1.0 - distance`. -/
def shapeIcon (row : QueryRow) : Icon :=
  { id := row.id
    name := row.name.getD row.id
    category := row.category.getD "general"
    keywords := row.keywords
    similarity_score := 1 - row.distance }

/-- `_get_fallback_icons(limit)`: `min(limit, 6)` generic icons, category
`"general"`, similarity score `0.5`. -/
def get_fallback_icons (limit : Nat) : List Icon :=
  (List.range (min limit 6)).map fun i =>
    { id := "fallback_" ++ toString i
      name := "Icon " ++ toString (i + 1)
      category := "general"
      keywords := ["general", "icon"]
      similarity_score := 1 / 2 }

/-- `find_relevant_icons(content, category, limit)`: empty list when the
collection is unavailable; on a successful query, the shaped rows in the
index's order; the fallback icons only when the query raises. -/
def find_relevant_icons (collection : Option (String → Option String → Nat → QueryOutcome))
    (content : String) (category : Option String) (limit : Nat) : List Icon :=
  match collection with
  | none => []
  | some query =>
    match query content category limit with
    | QueryOutcome.err => get_fallback_icons limit
    | QueryOutcome.ok rows => rows.map shapeIcon

/-! ### Content analysis (`backend/main.py`)

`analyze_basic_content` (lines 295-365) is the deterministic fallback
extractor; `analyze_with_openai` (lines 207-293) post-processes the parsed
language-model draft.  Both return the same result shape. -/

/-- Maximal digit run at the head of a character list (the greedy `\d+`). -/
def takeDigits : List Char → List Char
  | [] => []
  | c :: rest => if c.isDigit then c :: takeDigits rest else []

/-- Numeric value of a digit run. -/
def digitsToNat (ds : List Char) : Nat :=
  ds.foldl (fun n c => 10 * n + (c.toNat - '0'.toNat)) 0

/-- A match of `(\d+)%|(\d+)\s*percent` (case-insensitive) starting exactly at
the head of `cs`: a non-empty maximal digit run followed either by `%` or by
optional whitespace and the literal `percent`; returns the run's value. -/
def matchPercentAt (cs : List Char) : Option Nat :=
  let ds := takeDigits cs
  if ds.isEmpty then none
  else
    let rest := cs.drop ds.length
    match rest with
    | '%' :: _ => some (digitsToNat ds)
    | _ =>
      let rest2 := rest.dropWhile Char.isWhitespace
      if lowerL (rest2.take 7) = "percent".toList then some (digitsToNat ds) else none

/-- `re.search(r'(\d+)%|(\d+)\s*percent', s, re.IGNORECASE)`: value of the
leftmost match (Python's scan tries each start position left to right). -/
def findPctNumber : List Char → Option Nat
  | [] => none
  | c :: rest =>
    match matchPercentAt (c :: rest) with
    | some n => some n
    | none => findPctNumber rest

/-- The sentence stream of `analyze_basic_content`: `transcript_text.split('.')`,
first 30, each stripped, skipping those shorter than 10 characters. -/
def processedSentences (text : List Char) : List (List Char) :=
  (((splitOnChar '.' text).take 30).map pyStrip).filter fun s => ¬ s.length < 10

/-- The statistics extraction loop: a processed sentence with a percentage
match contributes `{label: sentence (ellipsized past 40 chars),
value: "NN%", percentage: min(NN, 100)}`. -/
def extractStats (text : List Char) : List Statistic :=
  (processedSentences text).filterMap fun s =>
    match findPctNumber s with
    | none => none
    | some p =>
      some { label := if s.length > 40 then String.mk (s.take 40) ++ "..." else String.mk s
             value := toString p ++ "%"
             percentage := (min p 100 : Nat) }

/-- The salience markers of the key-point extraction. -/
def key_indicators : List String :=
  ["important", "key", "main", "first", "second", "third", "remember", "crucial"]

/-- The key-point extraction loop: a processed sentence containing a salience
marker (against its lowercased text) and at most 120 characters long. -/
def extractKeyPoints (text : List Char) : List (List Char) :=
  (processedSentences text).filter fun s =>
    (key_indicators.any fun ind => isSubstrL ind.toList (lowerL s)) && s.length ≤ 120

/-- The quotes extraction loop: a processed sentence containing `"` is kept
with the quote characters removed (`sentence.replace('"', '')`). -/
def extractQuotes (text : List Char) : List (List Char) :=
  ((processedSentences text).filter fun s => isSubstrL ['"'] s).map fun s =>
    s.filter fun c => c ≠ '"'

/-- Title selection: first of the first 5 sentences whose stripped form is
longer than 10 characters, cut to 80 characters; otherwise the fixed default. -/
def mainTitleOf (text : List Char) : String :=
  let clean := (((splitOnChar '.' text).take 5).map pyStrip).filter fun s => s.length > 10
  match clean with
  | [] => "Video Content Summary"
  | t :: _ => String.mk (t.take 80)

/-- The no-salient-sentence fallback: stripped `sentences[1:8]` longer than 15
and at most 120 characters, first 6. -/
def fallbackKeyPoints (text : List Char) : List (List Char) :=
  (((((splitOnChar '.' text).drop 1).take 7).map pyStrip).filter fun s =>
    s.length > 15 && s.length ≤ 120).take 6

/-! #### `get_content_icons` (`backend/main.py`, lines 107-191) -/

/-- The string-valued entries of the `icon_keywords` dict, in insertion order
(the list-valued category entries are skipped by the `isinstance(icon, str)`
guard). -/
def icon_keyword_pairs : List (String × String) :=
  [("growth", "TrendingUp"), ("profit", "DollarSign"), ("revenue", "BarChart3"),
   ("market", "Target"), ("strategy", "Lightbulb"), ("team", "Users"),
   ("leadership", "Crown"), ("success", "Award"), ("goal", "Flag"),
   ("performance", "Activity"),
   ("ai", "Brain"), ("data", "Database"), ("digital", "Smartphone"),
   ("automation", "Zap"), ("innovation", "Rocket"), ("software", "Code"),
   ("security", "Shield"), ("cloud", "Cloud"),
   ("learn", "BookOpen"), ("education", "GraduationCap"), ("skill", "Star"),
   ("knowledge", "Brain"), ("training", "Users"), ("development", "TrendingUp"),
   ("health", "Heart"), ("fitness", "Activity"), ("nutrition", "Apple"),
   ("wellness", "Smile"), ("exercise", "Dumbbell"),
   ("communication", "MessageCircle"), ("social", "Users"), ("network", "Share2"),
   ("community", "Users"), ("collaboration", "Handshake"),
   ("time", "Clock"), ("productivity", "CheckCircle"), ("efficiency", "Zap"),
   ("organization", "Calendar"), ("planning", "Map")]

/-- The list-valued category entries of `icon_keywords` (the defaults used
when no keyword matches); `icon_keywords.get(category, icon_keywords['business'])`. -/
def category_default_icons (category : String) : List String :=
  if category = "business" then ["Briefcase", "TrendingUp", "Target", "Award", "Users"]
  else if category = "education" then ["BookOpen", "GraduationCap", "Lightbulb", "Star", "Brain"]
  else if category = "technology" then ["Smartphone", "Zap", "Database", "Code", "Rocket"]
  else if category = "health" then ["Heart", "Activity", "Shield", "Smile", "Apple"]
  else if category = "finance" then ["DollarSign", "BarChart3", "TrendingUp", "PieChart", "CreditCard"]
  else ["Briefcase", "TrendingUp", "Target", "Award", "Users"]

/-- The per-point loop of `get_content_icons`; `n` is `len(selected_icons)`
so far.  First keyword whose name occurs in the lowercased point wins,
otherwise the category defaults are cycled. -/
def get_content_icons_aux (category : String) : List String → Nat → List String
  | [], _ => []
  | point :: rest, n =>
    let pl := String.mk (lowerL point.toList)
    let icon :=
      match icon_keyword_pairs.find? fun kv => substrInStr kv.1 pl with
      | some kv => kv.2
      | none =>
        let cats := category_default_icons category
        cats.getD (n % cats.length) ""
    icon :: get_content_icons_aux category rest (n + 1)

/-- `get_content_icons(key_points, category)`. -/
def get_content_icons (key_points : List String) (category : String) : List String :=
  get_content_icons_aux category key_points 0

/-! #### The analysis result shape and the two analysis paths -/

/-- The result dict shared by `analyze_with_openai` and
`analyze_basic_content`. -/
structure AnalysisResult where
  mainTitle : String
  keyPoints : List String
  statistics : List Statistic
  quotes : List String
  category : String
  summary : String
  wordCount : Nat
  transcriptLength : Nat
  icons : List String
  deriving DecidableEq, Repr

/-- The key-point finalization of `analyze_basic_content`: the fallback list
when no salience-marked sentence exists, then `while len < 5: append` the
generic filler, then truncate past 6. -/
def basicKeyPointsRaw (text : List Char) : List (List Char) :=
  let kp1 := if (extractKeyPoints text).isEmpty then fallbackKeyPoints text else extractKeyPoints text
  let kp2 := kp1 ++ List.replicate (5 - kp1.length) "Key insight extracted from video content".toList
  if kp2.length > 6 then kp2.take 6 else kp2

/-- The two default statistics generated when none were extracted. -/
def defaultStats (word_count kp_len : Nat) : List Statistic :=
  [{ label := "Video Content Analysis", value := toString word_count ++ " words",
     percentage := (min (word_count / 20) 100 : Nat) },
   { label := "Key Points Identified", value := toString kp_len,
     percentage := (kp_len * 15 : Nat) }]

/-- The statistics of `analyze_basic_content` before the `[:4]` cut: the
extracted ones, or the two generated defaults when none were found. -/
def basicStats (text : List Char) : List Statistic :=
  if (extractStats text).isEmpty then
    defaultStats (pyWordCount text) (basicKeyPointsRaw text).length
  else extractStats text

/-- `analyze_basic_content(transcript_text)` (lines 295-365). -/
def analyze_basic_content (transcript_text : String) : AnalysisResult :=
  let text := transcript_text.toList
  let word_count := pyWordCount text
  let key_points := basicKeyPointsRaw text
  let stats := basicStats text
  { mainTitle := mainTitleOf text
    keyPoints := key_points.map String.mk
    statistics := stats.take 4
    quotes := ((extractQuotes text).take 2).map String.mk
    category := "business"
    summary := "Analysis of video content covering " ++ toString key_points.length ++ " main topics"
    wordCount := word_count
    transcriptLength := text.length
    icons := get_content_icons (key_points.map String.mk) "business" }

/-- The parsed JSON draft the language model returns (`json.loads(content)`).
A draft that fails to parse raises and the caller falls back to
`analyze_basic_content`; this models the successfully parsed case. -/
structure Draft where
  mainTitle : String
  keyPoints : List String
  statistics : List Statistic
  quotes : List String
  category : String
  summary : String
  deriving DecidableEq, Repr

/-- The `Ensure we have exactly 5-6 key points` block of `analyze_with_openai`:
pad to 5 with the generic filler, truncate past 6, otherwise unchanged. -/
def openaiKeyPoints (kps0 : List String) : List String :=
  if kps0.length < 5 then
    kps0 ++ List.replicate (5 - kps0.length) "Additional insight from the video content"
  else if kps0.length > 6 then kps0.take 6
  else kps0

/-- The post-parse processing of `analyze_with_openai` (lines 210-286): the
transcript is truncated to 12000 characters for the prompt, metadata and icons
are attached, and only the key points are padded to 5 / truncated to 6
(`openaiKeyPoints`) — statistics, quotes and category are passed through
unchanged. -/
def analyze_with_openai_post (transcript_text : String) (draft : Draft) : AnalysisResult :=
  let t := if transcript_text.toList.length > 12000 then
      String.mk (transcript_text.toList.take 12000) ++ "..." else transcript_text
  let icons := get_content_icons draft.keyPoints draft.category
  { mainTitle := draft.mainTitle
    keyPoints := openaiKeyPoints draft.keyPoints
    statistics := draft.statistics
    quotes := draft.quotes
    category := draft.category
    summary := draft.summary
    wordCount := pyWordCount t.toList
    transcriptLength := t.toList.length
    icons := icons }

/-! ### Helper lemmas -/

theorem mapElems_length {α β : Type} (f : Nat → α → Coord → β) :
    ∀ (i : Nat) (as : List α) (cs : List Coord),
      (mapElems f i as cs).length = min as.length cs.length := by
  intro i as
  induction as generalizing i with
  | nil => intro cs; simp [mapElems]
  | cons a rest ih =>
    intro cs
    cases cs with
    | nil => simp [mapElems]
    | cons c cs' => simp [mapElems, ih, Nat.succ_min_succ]

theorem mapElems_get {α β : Type} (f : Nat → α → Coord → β) :
    ∀ (i k : Nat) (as : List α) (cs : List Coord),
      (mapElems f i as cs).get? k =
        (as.get? k).bind fun a => (cs.get? k).map fun c => f (i + k) a c := by
  intro i k as
  induction as generalizing i k with
  | nil => intro cs; simp [mapElems]
  | cons a rest ih =>
    intro cs
    cases cs with
    | nil => cases k <;> simp [mapElems]
    | cons c cs' =>
      cases k with
      | zero => simp [mapElems]
      | succ k' =>
        simp only [mapElems, List.get?_cons_succ, ih (i + 1) k' cs']
        have : i + 1 + k' = i + (k' + 1) := by omega
        rw [this]

theorem mapElems_mem {α β : Type} (f : Nat → α → Coord → β) :
    ∀ (i : Nat) (as : List α) (cs : List Coord) (b : β),
      b ∈ mapElems f i as cs → ∃ j a c, b = f j a c := by
  intro i as
  induction as generalizing i with
  | nil => intro cs b h; simp [mapElems] at h
  | cons a rest ih =>
    intro cs b h
    cases cs with
    | nil => simp [mapElems] at h
    | cons c cs' =>
      simp only [mapElems, List.mem_cons] at h
      rcases h with h | h
      · exact ⟨i, a, c, h⟩
      · exact ih (i + 1) cs' b h

theorem findBestLoop_const (tl : String) :
    ∀ (icons : List Icon) (best : Option Icon) (s : ℚ),
      (∀ i ∈ icons, iconScore tl i ≤ s) → findBestLoop tl icons best s = best := by
  intro icons
  induction icons with
  | nil => intro best s _; rfl
  | cons a rest ih =>
    intro best s h
    have ha : ¬ s < iconScore tl a := not_lt.mpr (h a (by simp))
    simp only [findBestLoop, if_neg ha]
    exact ih best s fun i hi => h i (by simp [hi])

theorem findBestLoop_argmax (tl : String) :
    ∀ (icons : List Icon) (best : Option Icon) (s : ℚ),
      (∃ i ∈ icons, s < iconScore tl i) →
      ∃ pre b post, icons = pre ++ b :: post ∧
        findBestLoop tl icons best s = some b ∧ s < iconScore tl b ∧
        (∀ p ∈ pre, iconScore tl p < iconScore tl b) ∧
        (∀ q ∈ post, iconScore tl q ≤ iconScore tl b) := by
  intro icons
  induction icons with
  | nil => rintro best s ⟨i, hi, _⟩; simp at hi
  | cons a rest ih =>
    intro best s hex
    by_cases ha : s < iconScore tl a
    · by_cases hrest : ∃ j ∈ rest, iconScore tl a < iconScore tl j
      · obtain ⟨pre, b, post, heq, hloop, hb, hpre, hpost⟩ := ih (some a) (iconScore tl a) hrest
        refine ⟨a :: pre, b, post, by simp [heq], ?_, lt_trans ha hb, ?_, hpost⟩
        · simp only [findBestLoop, if_pos ha]
          exact hloop
        · intro p hp
          rcases List.mem_cons.mp hp with h1 | h2
          · simpa [h1] using hb
          · exact hpre p h2
      · push_neg at hrest
        have hloop : findBestLoop tl rest (some a) (iconScore tl a) = some a :=
          findBestLoop_const tl rest (some a) (iconScore tl a) hrest
        refine ⟨[], a, rest, rfl, ?_, ha, by simp, hrest⟩
        simp only [findBestLoop, if_pos ha]
        exact hloop
    · have hex' : ∃ j ∈ rest, s < iconScore tl j := by
        obtain ⟨i, hi, hsi⟩ := hex
        rcases List.mem_cons.mp hi with h1 | h2
        · exact absurd (h1 ▸ hsi) ha
        · exact ⟨i, h2, hsi⟩
      obtain ⟨pre, b, post, heq, hloop, hb, hpre, hpost⟩ := ih best s hex'
      refine ⟨a :: pre, b, post, by simp [heq], ?_, hb, ?_, hpost⟩
      · simp only [findBestLoop, if_neg ha]
        exact hloop
      · intro p hp
        rcases List.mem_cons.mp hp with h1 | h2
        · exact h1 ▸ lt_of_le_of_lt (not_lt.mp ha) hb
        · exact hpre p h2

theorem iconScore_nonneg (tl : String) (icon : Icon)
    (h : 0 ≤ icon.similarity_score) : 0 ≤ iconScore tl icon := by
  unfold iconScore
  have h1 : (0 : ℚ) ≤ 2 * ((icon.keywords.filter fun kw =>
      substrInStr (String.mk (lowerL kw.toList)) tl).length : ℚ) := by positivity
  have h2 : (0 : ℚ) ≤ if substrInStr (String.mk (lowerL icon.category.toList)) tl then 1 else 0 := by
    split <;> norm_num
  linarith

theorem padTrunc_bounds {α : Type} (l : List α) (fill : α) :
    5 ≤ (if (l ++ List.replicate (5 - l.length) fill).length > 6
         then (l ++ List.replicate (5 - l.length) fill).take 6
         else l ++ List.replicate (5 - l.length) fill).length ∧
      (if (l ++ List.replicate (5 - l.length) fill).length > 6
       then (l ++ List.replicate (5 - l.length) fill).take 6
       else l ++ List.replicate (5 - l.length) fill).length ≤ 6 := by
  have hlen : (l ++ List.replicate (5 - l.length) fill).length = l.length + (5 - l.length) := by
    simp
  split
  · rename_i hgt
    rw [List.length_take, hlen]
    rw [hlen] at hgt
    omega
  · rename_i hle
    rw [hlen]
    rw [hlen] at hle
    omega

theorem basicKeyPointsRaw_bounds (text : List Char) :
    5 ≤ (basicKeyPointsRaw text).length ∧ (basicKeyPointsRaw text).length ≤ 6 := by
  unfold basicKeyPointsRaw
  dsimp only
  exact padTrunc_bounds _ _

theorem openaiKeyPoints_bounds (kps0 : List String) :
    5 ≤ (openaiKeyPoints kps0).length ∧ (openaiKeyPoints kps0).length ≤ 6 := by
  unfold openaiKeyPoints
  split
  · rename_i hlt
    simp only [List.length_append, List.length_replicate]
    omega
  · rename_i hge
    split
    · rename_i hgt
      simp only [List.length_take]
      omega
    · rename_i hle
      omega

/-! ### Concrete fixtures used by witnesses and counterexamples -/

/-- A small content analysis with one element of each kind. -/
def demoContent : ContentAnalysis :=
  { mainTitle := "T", keyPoints := ["A"],
    statistics := [{ label := "Growth", value := "85%", percentage := 85 }],
    quotes := ["Q"], category := "business" }

/-- A template coordinate schema with one slot of each kind. -/
def demoCoords : TemplateCoords :=
  { key_point := [⟨100, 400, 32, 32, "medium"⟩],
    statistic := [⟨200, 1100, 40, 40, "medium"⟩],
    quote := [⟨300, 1200, 40, 40, "medium"⟩] }

/-- The first icon of the spec's selection scenario. -/
def growthIcon : Icon :=
  { id := "growth-1", name := "Business Growth", category := "business",
    keywords := ["growth"], similarity_score := 2 / 5 }

/-- The second icon of the spec's selection scenario. -/
def aiIcon : Icon :=
  { id := "ai-1", name := "Artificial Intelligence", category := "technology",
    keywords := ["ai"], similarity_score := 9 / 10 }

/-- An icon that scores zero against the text `"xyz"`. -/
def plainIcon : Icon :=
  { id := "plain-1", name := "Plain", category := "general",
    keywords := ["general", "icon"], similarity_score := 0 }

theorem score_growth :
    iconScore (String.mk (lowerL "business growth is key".toList)) growthIcon = 17 / 5 := by
  have h1 : (List.filter (fun kw => substrInStr (String.mk (lowerL kw.toList))
      (String.mk (lowerL "business growth is key".toList))) ["growth"]).length = 1 := by decide
  have h2 : substrInStr (String.mk (lowerL "business".toList))
      (String.mk (lowerL "business growth is key".toList)) = true := by decide
  simp only [iconScore, growthIcon, h1, h2, if_true]
  norm_num

theorem score_ai :
    iconScore (String.mk (lowerL "business growth is key".toList)) aiIcon = 9 / 10 := by
  have h1 : (List.filter (fun kw => substrInStr (String.mk (lowerL kw.toList))
      (String.mk (lowerL "business growth is key".toList))) ["ai"]).length = 0 := by decide
  have h2 : substrInStr (String.mk (lowerL "technology".toList))
      (String.mk (lowerL "business growth is key".toList)) = false := by decide
  simp only [iconScore, aiIcon, h1, h2]
  norm_num

theorem scenario_selects_growth :
    find_best_icon_for_text "business growth is key" [growthIcon, aiIcon]
      = some growthIcon := by
  simp only [find_best_icon_for_text, findBestLoop, score_growth, score_ai]
  norm_num

theorem scenario_sims_nonneg : ∀ i ∈ [growthIcon, aiIcon], 0 ≤ i.similarity_score := by
  intro i hi
  rcases List.mem_cons.mp hi with h | h
  · subst h; norm_num [growthIcon]
  · simp only [List.mem_singleton] at h; subst h; norm_num [aiIcon]

theorem score_plain :
    ∀ i ∈ [plainIcon], iconScore (String.mk (lowerL "xyz".toList)) i ≤ 0 := by
  intro i hi
  simp only [List.mem_singleton] at hi
  subst hi
  have h1 : (List.filter (fun kw => substrInStr (String.mk (lowerL kw.toList))
      (String.mk (lowerL "xyz".toList))) ["general", "icon"]).length = 0 := by decide
  have h2 : substrInStr (String.mk (lowerL "general".toList))
      (String.mk (lowerL "xyz".toList)) = false := by decide
  simp only [iconScore, plainIcon, h1, h2]
  norm_num

/-! ### Claims -/

/-- C1: the layout mapper never reorders: for each kind, the content element
at position `i` is bound to the `i`-th coordinate slot of that kind with its
exact text, elements with no corresponding slot are dropped, and each output
sequence has length `min` of the element and slot counts, preserving content
order. -/
theorem mapper_binds_in_order (content : ContentAnalysis) (coords : TemplateCoords)
    (icons : List Icon) :
    ((map_icons_to_positions content coords icons).key_points.length
        = min content.keyPoints.length coords.key_point.length
      ∧ (map_icons_to_positions content coords icons).statistics.length
        = min content.statistics.length coords.statistic.length
      ∧ (map_icons_to_positions content coords icons).quotes.length
        = min content.quotes.length coords.quote.length)
    ∧ (∀ k : Nat,
        (map_icons_to_positions content coords icons).key_points.get? k =
          (content.keyPoints.get? k).bind fun p => (coords.key_point.get? k).map fun c =>
            { index := k, text := p, position := c.pos,
              icon := find_best_icon_for_text p icons, icon_size := c.icon_size })
    ∧ (∀ k : Nat,
        (map_icons_to_positions content coords icons).statistics.get? k =
          (content.statistics.get? k).bind fun st => (coords.statistic.get? k).map fun c =>
            { index := k, data := st, position := c.pos,
              icon := find_best_icon_for_text (st.label ++ " " ++ st.value) icons,
              icon_size := c.icon_size })
    ∧ (∀ k : Nat,
        (map_icons_to_positions content coords icons).quotes.get? k =
          (content.quotes.get? k).bind fun q => (coords.quote.get? k).map fun c =>
            { index := k, text := q, position := c.pos,
              icon := find_best_icon_for_text "quote" icons,
              icon_size := c.icon_size }) := by
  refine ⟨⟨mapElems_length _ 0 _ _, mapElems_length _ 0 _ _, mapElems_length _ 0 _ _⟩,
    fun k => ?_, fun k => ?_, fun k => ?_⟩ <;>
    · show (mapElems _ 0 _ _).get? k = _
      rw [mapElems_get]
      simp only [Nat.zero_add]

/-- C5: with an empty icon pool every element is still positioned (same
min-length binding) and its icon field is null. -/
theorem empty_pool_positions_with_null_icon (content : ContentAnalysis)
    (coords : TemplateCoords) :
    ((map_icons_to_positions content coords []).key_points.length
        = min content.keyPoints.length coords.key_point.length
      ∧ (map_icons_to_positions content coords []).statistics.length
        = min content.statistics.length coords.statistic.length
      ∧ (map_icons_to_positions content coords []).quotes.length
        = min content.quotes.length coords.quote.length)
    ∧ (∀ e ∈ (map_icons_to_positions content coords []).key_points, e.icon = none)
    ∧ (∀ e ∈ (map_icons_to_positions content coords []).statistics, e.icon = none)
    ∧ (∀ e ∈ (map_icons_to_positions content coords []).quotes, e.icon = none) := by
  refine ⟨⟨mapElems_length _ 0 _ _, mapElems_length _ 0 _ _, mapElems_length _ 0 _ _⟩,
    fun e he => ?_, fun e he => ?_, fun e he => ?_⟩ <;>
    · obtain ⟨j, a, c, rfl⟩ := mapElems_mem _ 0 _ _ e he
      rfl

/-- C5 witness: with the demo schema and an empty pool the key point `"A"` is
positioned at its slot with a null icon. -/
theorem empty_pool_positions_with_null_icon_witness :
    ({ index := 0, text := "A", position := ⟨100, 400, 32, 32⟩,
       icon := none, icon_size := "medium" } : PositionedText).icon = none :=
  (empty_pool_positions_with_null_icon demoContent demoCoords).2.1 _ (by decide)

/-- C6: during icon selection every positioned statistic is matched against
its label and value concatenated, and every positioned quote against the
fixed literal `"quote"`. -/
theorem stats_and_quotes_matching_text (content : ContentAnalysis)
    (coords : TemplateCoords) (icons : List Icon) :
    (∀ e ∈ (map_icons_to_positions content coords icons).statistics,
       e.icon = find_best_icon_for_text (e.data.label ++ " " ++ e.data.value) icons)
    ∧ (∀ e ∈ (map_icons_to_positions content coords icons).quotes,
       e.icon = find_best_icon_for_text "quote" icons) := by
  refine ⟨fun e he => ?_, fun e he => ?_⟩ <;>
    · obtain ⟨j, a, c, rfl⟩ := mapElems_mem _ 0 _ _ e he
      rfl

/-- C6 witness: the demo statistic's icon is selected against
`"Growth" + " " + "85%"`. -/
theorem stats_and_quotes_matching_text_witness :
    ({ index := 0, data := { label := "Growth", value := "85%", percentage := 85 },
       position := ⟨200, 1100, 40, 40⟩, icon := none,
       icon_size := "medium" } : PositionedStat).icon
      = find_best_icon_for_text ("Growth" ++ " " ++ "85%") [] := by
  have h := (stats_and_quotes_matching_text demoContent demoCoords []).1
  exact h _ (by decide)

/-- C2: for a non-empty pool of candidates with non-negative similarity
scores (the data model keeps them in `[0,1]`), the selected icon attains the
maximal score against the element's own text and is the first candidate
attaining it (ties break by pool order); and on the spec's concrete scenario
pool the first candidate is selected. -/
theorem best_icon_maximizes_score (text : String) (icons : List Icon)
    (hne : icons ≠ []) (hnn : ∀ i ∈ icons, 0 ≤ i.similarity_score) :
    (∃ pre b post, icons = pre ++ b :: post ∧
       find_best_icon_for_text text icons = some b ∧
       (∀ i ∈ icons, iconScore (String.mk (lowerL text.toList)) i
          ≤ iconScore (String.mk (lowerL text.toList)) b) ∧
       (∀ p ∈ pre, iconScore (String.mk (lowerL text.toList)) p
          < iconScore (String.mk (lowerL text.toList)) b))
    ∧ find_best_icon_for_text "business growth is key" [growthIcon, aiIcon]
        = some growthIcon := by
  constructor
  · obtain ⟨first, rest, rfl⟩ := List.exists_cons_of_ne_nil hne
    set tl := String.mk (lowerL text.toList) with htl
    by_cases hex : ∃ i ∈ first :: rest, 0 < iconScore tl i
    · obtain ⟨pre, b, post, heq, hloop, _, hpre, hpost⟩ :=
        findBestLoop_argmax tl (first :: rest) none 0 hex
      refine ⟨pre, b, post, heq, ?_, ?_, hpre⟩
      · simp only [find_best_icon_for_text, ← htl, hloop]
      · intro i hi
        rw [heq] at hi
        rcases List.mem_append.mp hi with h1 | h2
        · exact le_of_lt (hpre i h1)
        · rcases List.mem_cons.mp h2 with h3 | h4
          · exact le_of_eq (by rw [h3])
          · exact hpost i h4
    · push_neg at hex
      have hloop : findBestLoop tl (first :: rest) none 0 = none :=
        findBestLoop_const tl _ none 0 hex
      refine ⟨[], first, rest, rfl, ?_, ?_, by simp⟩
      · simp only [find_best_icon_for_text, ← htl, hloop]
      · intro i hi
        have h2 : 0 ≤ iconScore tl first := iconScore_nonneg tl first (hnn first (by simp))
        exact le_trans (hex i hi) h2
  · exact scenario_selects_growth

/-- C2 witness: the scenario instantiation of `best_icon_maximizes_score`. -/
theorem best_icon_maximizes_score_witness :
    find_best_icon_for_text "business growth is key" [growthIcon, aiIcon]
      = some growthIcon :=
  (best_icon_maximizes_score "business growth is key" [growthIcon, aiIcon]
    (by decide) scenario_sims_nonneg).2

/-- C10: for a non-empty pool the selection always returns an icon from the
pool, and when no candidate achieves a positive score the first pool icon is
returned as fallback. -/
theorem nonempty_pool_falls_back_to_first (text : String) (first : Icon)
    (rest : List Icon) :
    (∃ b, find_best_icon_for_text text (first :: rest) = some b ∧ b ∈ first :: rest)
    ∧ ((∀ i ∈ first :: rest, iconScore (String.mk (lowerL text.toList)) i ≤ 0) →
       find_best_icon_for_text text (first :: rest) = some first) := by
  set tl := String.mk (lowerL text.toList) with htl
  by_cases hex : ∃ i ∈ first :: rest, 0 < iconScore tl i
  · obtain ⟨pre, b, post, heq, hloop, hb, _, _⟩ :=
      findBestLoop_argmax tl (first :: rest) none 0 hex
    constructor
    · refine ⟨b, ?_, ?_⟩
      · simp only [find_best_icon_for_text, ← htl, hloop]
      · rw [heq]
        exact List.mem_append.mpr (Or.inr (List.mem_cons_self b post))
    · intro hall
      obtain ⟨i, hi, h0⟩ := hex
      exact absurd (hall i hi) (not_le.mpr h0)
  · push_neg at hex
    have hloop : findBestLoop tl (first :: rest) none 0 = none :=
      findBestLoop_const tl _ none 0 hex
    have heq : find_best_icon_for_text text (first :: rest) = some first := by
      simp only [find_best_icon_for_text, ← htl, hloop]
    exact ⟨⟨first, heq, by simp⟩, fun _ => heq⟩

/-- C10 witness: a pool whose only icon scores zero against `"xyz"` still
yields that icon. -/
theorem nonempty_pool_falls_back_to_first_witness :
    find_best_icon_for_text "xyz" [plainIcon] = some plainIcon :=
  (nonempty_pool_falls_back_to_first "xyz" plainIcon []).2 score_plain

/-- C7: an unknown template id makes the schema lookup return an
empty/absent result and the generation operation return an empty result;
both functions are total, so no exception is raised. -/
theorem unknown_template_returns_empty (store : List TemplateData)
    (iconService : String → String → Nat → List Icon)
    (content : ContentAnalysis) (template_id : String)
    (h : ∀ td ∈ store, td.template.id ≠ template_id) :
    get_template_coordinates store template_id = none
    ∧ generate_infographic_data store iconService content template_id = none := by
  have hfind : get_template_coordinates store template_id = none := by
    unfold get_template_coordinates
    rw [List.find?_eq_none]
    intro td htd
    simp [h td htd]
  refine ⟨hfind, ?_⟩
  unfold generate_infographic_data
  rw [hfind]

/-- A one-template store used by the C7 witness. -/
def demoTemplateData : TemplateData :=
  { template := { id := "modern-business", name := "Modern Business",
                  category := "business", width := 1200, height := 1800 },
    coordinates := demoCoords, color_schemes := [] }

/-- C7 witness: a store holding only `modern-business`, queried with a
missing id. -/
theorem unknown_template_returns_empty_witness :
    get_template_coordinates [demoTemplateData] "missing-template" = none
    ∧ generate_infographic_data [demoTemplateData] (fun _ _ _ => [])
        demoContent "missing-template" = none :=
  unknown_template_returns_empty [demoTemplateData] (fun _ _ _ => [])
    demoContent "missing-template" (by decide)

/-- C4 counterexample: when the collection handle is unavailable
(`self.collection is None`), and likewise when the query succeeds with zero
rows, `find_relevant_icons` returns the empty list — not the non-empty
placeholder list the claim requires for the "index unavailable / no usable
signal" cases. -/
theorem rank_unavailable_empty_counterexample :
    find_relevant_icons none "business growth" (some "business") 5 = []
    ∧ find_relevant_icons (some fun _ _ _ => QueryOutcome.ok [])
        "business growth" (some "business") 5 = [] :=
  ⟨rfl, rfl⟩

/-- C4 amended: only when the query raises does the ranker return the fixed
fallback list — non-empty for a positive limit, of length `min(limit, 6) ≤
limit`, all category `"general"` with similarity score `0.5`; when the
collection is unavailable it returns the empty list instead. -/
theorem rank_fallback_amended (q : String → Option String → Nat → QueryOutcome)
    (content : String) (category : Option String) (limit : Nat)
    (hlim : 1 ≤ limit) (herr : q content category limit = QueryOutcome.err) :
    (find_relevant_icons (some q) content category limit = get_fallback_icons limit
     ∧ find_relevant_icons (some q) content category limit ≠ []
     ∧ (find_relevant_icons (some q) content category limit).length ≤ limit
     ∧ ∀ i ∈ find_relevant_icons (some q) content category limit,
         i.category = "general" ∧ i.similarity_score = 1 / 2)
    ∧ find_relevant_icons none content category limit = [] := by
  have heq : find_relevant_icons (some q) content category limit = get_fallback_icons limit := by
    simp only [find_relevant_icons, herr]
  have hlen : (get_fallback_icons limit).length = min limit 6 := by
    simp [get_fallback_icons]
  refine ⟨⟨heq, ?_, ?_, ?_⟩, rfl⟩
  · rw [heq]
    intro hnil
    have hl := congrArg List.length hnil
    rw [hlen] at hl
    simp only [List.length_nil] at hl
    omega
  · rw [heq, hlen]
    omega
  · rw [heq]
    intro i hi
    simp only [get_fallback_icons, List.mem_map] at hi
    obtain ⟨n, _, rfl⟩ := hi
    exact ⟨rfl, rfl⟩

/-- C4 witness: a raising query with limit 5 yields a non-empty fallback
list. -/
theorem rank_fallback_amended_witness :
    find_relevant_icons (some fun _ _ _ => QueryOutcome.err)
      "business growth" (some "business") 5 ≠ [] :=
  ((rank_fallback_amended (fun _ _ _ => QueryOutcome.err) "business growth"
    (some "business") 5 (by norm_num) rfl).1).2.1

/-- Three index rows tied at distance `0.5`, returned in an order (`b`, `a`,
`c`) that is neither ascending nor descending by id. -/
def tieRows : List QueryRow :=
  [{ id := "b", name := some "B", category := some "general", keywords := [], distance := 1 / 2 },
   { id := "a", name := some "A", category := some "general", keywords := [], distance := 1 / 2 },
   { id := "c", name := some "C", category := some "general", keywords := [], distance := 1 / 2 }]

/-- An index state that answers every query with `tieRows`. -/
def tieQuery : String → Option String → Nat → QueryOutcome :=
  fun _ _ _ => QueryOutcome.ok tieRows

/-- C9 counterexample: on an index response with three icons tied in
similarity score, the ranker's output keeps the index's order `b, a, c` —
tied icons are not reordered by icon id (or by any fixed secondary key on
icons: the order shown is neither ascending nor descending in id). -/
theorem rank_no_id_tiebreak_counterexample :
    (find_relevant_icons (some tieQuery) "query" none 10).map (fun i => i.id)
        = ["b", "a", "c"]
    ∧ (find_relevant_icons (some tieQuery) "query" none 10).map
        (fun i => i.similarity_score) = [1 - 1 / 2, 1 - 1 / 2, 1 - 1 / 2] :=
  ⟨rfl, rfl⟩

/-- C9 amended: the ranker is a pure shaping of the index's response — two
invocations against index states that agree on the query point return
identical ordered output, and the `k`-th output icon is the shaped `k`-th
index row, so tied similarity scores keep the index's response order rather
than being re-sorted by a secondary key. -/
theorem rank_deterministic_amended :
    (∀ (q₁ q₂ : String → Option String → Nat → QueryOutcome) (content : String)
       (category : Option String) (limit : Nat),
       q₁ content category limit = q₂ content category limit →
       find_relevant_icons (some q₁) content category limit
         = find_relevant_icons (some q₂) content category limit)
    ∧ (∀ (q : String → Option String → Nat → QueryOutcome) (rows : List QueryRow)
       (content : String) (category : Option String) (limit : Nat) (k : Nat),
       q content category limit = QueryOutcome.ok rows →
       (find_relevant_icons (some q) content category limit).get? k
         = (rows.get? k).map shapeIcon) := by
  constructor
  · intro q₁ q₂ content category limit h
    simp only [find_relevant_icons, h]
  · intro q rows content category limit k h
    simp only [find_relevant_icons, h, List.get?_map]

/-- C9 witness: two syntactically different index states agreeing on the
query point yield identical output. -/
theorem rank_deterministic_amended_witness :
    find_relevant_icons (some tieQuery) "query" none 10
      = find_relevant_icons (some fun _ _ _ => QueryOutcome.ok tieRows) "query" none 10 :=
  rank_deterministic_amended.1 tieQuery (fun _ _ _ => QueryOutcome.ok tieRows)
    "query" none 10 rfl

/-- A language-model draft with five statistics, three quotes and an
out-of-vocabulary category. -/
def draftBad : Draft :=
  { mainTitle := "T",
    keyPoints := ["a", "b", "c", "d", "e"],
    statistics := [{ label := "s1", value := "v", percentage := 10 },
                   { label := "s2", value := "v", percentage := 20 },
                   { label := "s3", value := "v", percentage := 30 },
                   { label := "s4", value := "v", percentage := 40 },
                   { label := "s5", value := "v", percentage := 50 }],
    quotes := ["q1", "q2", "q3"],
    category := "sports", summary := "" }

/-- C3 counterexample: on the language-model path the result keeps the
draft's five statistics, three quotes and the unrecognized category
`"sports"` — the claimed bounds (≤4 statistics, ≤2 quotes, category in the
fixed vocabulary with unrecognized values normalized to `"business"`) fail
there. -/
theorem openai_path_unvalidated_counterexample :
    ¬ ((analyze_with_openai_post "some transcript" draftBad).statistics.length ≤ 4)
    ∧ ¬ ((analyze_with_openai_post "some transcript" draftBad).quotes.length ≤ 2)
    ∧ (analyze_with_openai_post "some transcript" draftBad).category = "sports"
    ∧ "sports" ∉ ["business", "education", "technology", "health", "finance", "lifestyle"] := by
  refine ⟨by decide, by decide, rfl, by decide⟩

/-- C3 amended: on the deterministic fallback path the result always has 5–6
key points, at most 4 statistics, at most 2 quotes and category `"business"`;
on the language-model path only the key-point bound (5–6) is enforced, while
statistics, quotes and category pass through unvalidated. -/
theorem normalize_cardinalities_amended :
    (∀ t : String,
      (5 ≤ (analyze_basic_content t).keyPoints.length
        ∧ (analyze_basic_content t).keyPoints.length ≤ 6)
      ∧ (analyze_basic_content t).statistics.length ≤ 4
      ∧ (analyze_basic_content t).quotes.length ≤ 2
      ∧ (analyze_basic_content t).category = "business")
    ∧ (∀ (t : String) (d : Draft),
      (5 ≤ (analyze_with_openai_post t d).keyPoints.length
        ∧ (analyze_with_openai_post t d).keyPoints.length ≤ 6)
      ∧ (analyze_with_openai_post t d).statistics = d.statistics
      ∧ (analyze_with_openai_post t d).quotes = d.quotes
      ∧ (analyze_with_openai_post t d).category = d.category) := by
  constructor
  · intro t
    have hkp : (analyze_basic_content t).keyPoints.length
        = (basicKeyPointsRaw t.toList).length := by
      show ((basicKeyPointsRaw t.toList).map String.mk).length = _
      rw [List.length_map]
    have hb := basicKeyPointsRaw_bounds t.toList
    refine ⟨⟨?_, ?_⟩, ?_, ?_, rfl⟩
    · rw [hkp]; exact hb.1
    · rw [hkp]; exact hb.2
    · show ((basicStats t.toList).take 4).length ≤ 4
      rw [List.length_take]
      exact min_le_left _ _
    · show (((extractQuotes t.toList).take 2).map String.mk).length ≤ 2
      rw [List.length_map, List.length_take]
      exact min_le_left _ _
  · intro t d
    have hb := openaiKeyPoints_bounds d.keyPoints
    exact ⟨hb, rfl, rfl, rfl⟩

/-- A transcript with salient sentences but no percentage pattern. -/
def noPctText : String :=
  "This is an important key message about the main topic. Remember the crucial second point carefully."

/-- C8 counterexample: on a transcript containing neither `%` nor the word
`percent` there is nothing to derive a percentage from, yet the fallback
extractor still returns two statistics, with percentages computed from the
word count and the key-point count — invented, not located in the text. -/
theorem invented_default_stats_counterexample :
    (noPctText.toList.all fun c => c ≠ '%') = true
    ∧ isSubstrL "percent".toList (lowerL noPctText.toList) = false
    ∧ (analyze_basic_content noPctText).statistics.map (fun st => st.percentage) = [0, 75]
    ∧ (analyze_basic_content noPctText).statistics.map (fun st => st.label)
        = ["Video Content Analysis", "Key Points Identified"] := by
  refine ⟨by decide, by decide, by decide, by decide⟩

/-- C8 amended: every statistic produced by the fallback extractor has a
percentage within `[0, 100]`; pattern-derived percentages are clamped
(`min(NN, 100)`), but when no pattern is found the two default statistics
carry percentages invented from the word count and the key-point count. -/
theorem basic_stats_percentage_in_range (t : String) :
    ∀ st ∈ (analyze_basic_content t).statistics,
      0 ≤ st.percentage ∧ st.percentage ≤ 100 := by
  intro st hst
  have hst1 : st ∈ (basicStats t.toList).take 4 := hst
  have hst2 : st ∈ basicStats t.toList := List.take_subset 4 _ hst1
  unfold basicStats at hst2
  by_cases hempty : (extractStats t.toList).isEmpty
  · rw [if_pos hempty] at hst2
    have hkp := basicKeyPointsRaw_bounds t.toList
    simp only [defaultStats, List.mem_cons, List.not_mem_nil, or_false] at hst2
    rcases hst2 with h | h <;> subst h
    · refine ⟨Int.ofNat_nonneg _, ?_⟩
      have hle : min (pyWordCount t.toList / 20) 100 ≤ 100 := min_le_right _ _
      dsimp only
      exact_mod_cast hle
    · refine ⟨Int.ofNat_nonneg _, ?_⟩
      have hle : (basicKeyPointsRaw t.toList).length * 15 ≤ 100 := by
        have h6 := hkp.2
        omega
      dsimp only
      exact_mod_cast hle
  · rw [if_neg hempty] at hst2
    unfold extractStats at hst2
    rw [List.mem_filterMap] at hst2
    obtain ⟨s, _, hmatch⟩ := hst2
    cases hp : findPctNumber s with
    | none => rw [hp] at hmatch; simp at hmatch
    | some p =>
      rw [hp] at hmatch
      simp only [Option.some_inj] at hmatch
      subst hmatch
      refine ⟨Int.ofNat_nonneg _, ?_⟩
      have hle : min p 100 ≤ 100 := min_le_right _ _
      dsimp only
      exact_mod_cast hle

/-- A transcript with a located `85%` pattern. -/
def pctText : String := "Sales grew 85% this year according to the quarterly reports."

/-- C8 witness: the statistic extracted from `pctText` is in range. -/
theorem basic_stats_percentage_in_range_witness :
    0 ≤ ({ label := "Sales grew 85% this year according to th...", value := "85%",
           percentage := 85 } : Statistic).percentage
    ∧ ({ label := "Sales grew 85% this year according to th...", value := "85%",
         percentage := 85 } : Statistic).percentage ≤ 100 :=
  basic_stats_percentage_in_range pctText _ (by decide)

end Infographic
